import Mathlib

/-!
Shallow embedding of the smarthomeandcity repository (controller, services,
security, models modules) and verification of its specified properties.

Modelling conventions:
  * Python strings are `List Char` (`Str`); string literals are written
    `"...".toList`.
  * Python float amounts/balances and `time.time()` timestamps are `ℚ`
    (the ledger arithmetic is exact addition/subtraction).
  * The interpolated history strings and user-facing message strings of
    `services.py` are modelled by inductive types with one constructor per
    literal format string, carrying the interpolated value.
  * The mutable user dictionary (`authorized_users` / `user_db_ref`) is an
    association list with Python-dict get/set semantics (set replaces in
    place, insertion order preserved).
  * Side-effecting methods become state-passing functions returning their
    Python return value together with the updated state.
-/

set_option linter.unusedVariables false
set_option maxRecDepth 100000

namespace SmartCity

/-- Python `str` modelled as a list of characters. -/
abbrev Str := List Char

/-- History entries appended to `UserRecord.history` by `services.py`; one
constructor per literal format string in the source. -/
inductive HEntry where
  /-- `f"Deposit: +{amount} TL"` -/
  | deposit (a : ℚ)
  /-- `f"Crypto Deposit: +{amount}"` -/
  | cryptoDeposit (a : ℚ)
  /-- `f"Card Payment: -{amount}"` -/
  | cardPayment (a : ℚ)
  /-- `f"Balance Payment: -{amount}"` -/
  | balancePayment (a : ℚ)
  /-- `f"Crypto Payment: -{amount}"` -/
  | cryptoPayment (a : ℚ)
  deriving DecidableEq

/-- Messages returned by the banking services and the controller command
slot; one constructor per literal message string of the source. -/
inductive Msg where
  /-- `"Invalid amount."` (fiat load_money) -/
  | invalidAmountFiat
  /-- `"Invalid."` (crypto load_money / pay_bill) -/
  | invalidCrypto
  /-- `"User not found"` -/
  | userNotFound
  /-- `f"New Balance: {user.balance}"` -/
  | newBalance (b : ℚ)
  /-- `"Loaded."` -/
  | loaded
  /-- `"Invalid amount"` (fiat pay_bill) -/
  | invalidAmountBill
  /-- `"No Account"` -/
  | noAccount
  /-- `"Paid by card."` -/
  | paidByCard
  /-- `f"Paid from balance. Remaining: {user.balance}"` -/
  | paidFromBalance (b : ℚ)
  /-- `"Paid from balance."` (crypto) -/
  | paidFromBalanceCrypto
  /-- `"Paid with crypto."` -/
  | paidWithCrypto
  /-- `"Insufficient Balance."` (fiat) -/
  | insufficientBalanceFiat
  /-- `"Insufficient Balance"` (crypto) -/
  | insufficientBalanceCrypto
  /-- `"No command"` -/
  | noCommand
  deriving DecidableEq

/-- `models.Resident` after its constructor ran (name/surname already
sanitized there; the owned `SmartHomeSystem` is modelled separately). -/
structure Resident where
  name : Str
  surname : Str
  email : Str
  address : Str
  phone : Str
  deriving DecidableEq

/-- `models.UserRecord`. -/
structure UserRecord where
  tc_no : Str
  /-- hashed password, `"salt:hash"` form -/
  password : Str
  resident : Resident
  balance : ℚ := 0
  history : List HEntry := []
  is_honeypot : Bool := false
  deriving DecidableEq

/-- The user directory (`authorized_users`, shared with the controller as
`user_db_ref`): a Python dict keyed by phone, as an association list. -/
abbrev Db := List (Str × UserRecord)

/-- Python `dict.get(k)`. -/
def dictGet (db : Db) (k : Str) : Option UserRecord :=
  match db with
  | [] => none
  | (k', v) :: rest => if k' = k then some v else dictGet rest k

/-- Python `d[k] = v`: replace in place if the key exists, else append. -/
def dictSet (db : Db) (k : Str) (v : UserRecord) : Db :=
  match db with
  | [] => [(k, v)]
  | (k', v') :: rest =>
    if k' = k then (k', v) :: rest else (k', v') :: dictSet rest k v

/-- The optional `details` dict passed to the payment operations, with the
two keys the services look up. -/
structure PayDetails where
  card_no : Option Str := none
  wallet_id : Option Str := none
  deriving DecidableEq

/-- Python truthiness of `details.get(key)` for an optional string value. -/
def truthyOpt : Option Str → Bool
  | none => false
  | some s => !(s.isEmpty)

/-- `details and details.get("card_no")`. -/
def hasCard : Option PayDetails → Bool
  | none => false
  | some d => truthyOpt d.card_no

/-- `details and details.get("wallet_id")`. -/
def hasWallet : Option PayDetails → Bool
  | none => false
  | some d => truthyOpt d.wallet_id

namespace FiatPayment

/-- `FiatPayment.load_money`, acting on the user directory. -/
def load_money (db : Db) (user_id : Str) (amount : ℚ) : (Bool × Msg) × Db :=
  if amount ≤ 0 ∨ amount > 1000000 then ((false, .invalidAmountFiat), db)
  else
    match dictGet db user_id with
    | none => ((false, .userNotFound), db)
    | some user =>
      let user' := { user with balance := user.balance + amount,
                               history := user.history ++ [.deposit amount] }
      ((true, .newBalance user'.balance), dictSet db user_id user')

/-- `FiatPayment.pay_bill`. The `bill_type` argument is only interpolated
into log strings in the source and does not influence behaviour. -/
def pay_bill (db : Db) (amount : ℚ) (bill_type : Str) (user_id : Str)
    (details : Option PayDetails) : (Bool × Msg) × Db :=
  if amount ≤ 0 then ((false, .invalidAmountBill), db)
  else
    match dictGet db user_id with
    | none => ((false, .noAccount), db)
    | some user =>
      if hasCard details then
        let user' := { user with history := user.history ++ [.cardPayment amount] }
        ((true, .paidByCard), dictSet db user_id user')
      else if user.balance ≥ amount then
        let user' := { user with balance := user.balance - amount,
                                 history := user.history ++ [.balancePayment amount] }
        ((true, .paidFromBalance user'.balance), dictSet db user_id user')
      else ((false, .insufficientBalanceFiat), db)

/-- `FiatPayment.pay_parking`: delegates to `pay_bill` with the bill type
formatted as `f"Parking ({location})"`. -/
def pay_parking (db : Db) (amount : ℚ) (location : Option Str) (user_id : Str)
    (details : Option PayDetails) : (Bool × Msg) × Db :=
  pay_bill db amount
    (("Parking (").toList ++ (match location with
      | some l => l
      | none => ("None").toList) ++ (")").toList) user_id details

end FiatPayment

namespace CryptoAdapter

/-- `CryptoAdapter.load_money`: unlike the fiat variant it only rejects
non-positive amounts (no upper bound). -/
def load_money (db : Db) (user_id : Str) (amount : ℚ) : (Bool × Msg) × Db :=
  if amount ≤ 0 then ((false, .invalidCrypto), db)
  else
    match dictGet db user_id with
    | none => ((false, .userNotFound), db)
    | some user =>
      let user' := { user with balance := user.balance + amount,
                               history := user.history ++ [.cryptoDeposit amount] }
      ((true, .loaded), dictSet db user_id user')

/-- `CryptoAdapter.pay_bill`. `send_bitcoin` only formats a string and has
no effect on the ledger, so it does not appear in the state. -/
def pay_bill (db : Db) (amount : ℚ) (bill_type : Str) (user_id : Str)
    (details : Option PayDetails) : (Bool × Msg) × Db :=
  if amount ≤ 0 then ((false, .invalidCrypto), db)
  else
    match dictGet db user_id with
    | none => ((false, .noAccount), db)
    | some user =>
      if hasWallet details then
        let user' := { user with history := user.history ++ [.cryptoPayment amount] }
        ((true, .paidWithCrypto), dictSet db user_id user')
      else if user.balance ≥ amount then
        let user' := { user with balance := user.balance - amount,
                                 history := user.history ++ [.balancePayment amount] }
        ((true, .paidFromBalanceCrypto), dictSet db user_id user')
      else ((false, .insufficientBalanceCrypto), db)

/-- `CryptoAdapter.pay_parking`. -/
def pay_parking (db : Db) (amount : ℚ) (location : Option Str) (user_id : Str)
    (details : Option PayDetails) : (Bool × Msg) × Db :=
  pay_bill db amount
    (("Parking (").toList ++ (match location with
      | some l => l
      | none => ("None").toList) ++ (")").toList) user_id details

end CryptoAdapter

/-- A sample resident used to instantiate the statements on concrete data. -/
def sampleResident : Resident :=
  { name := ("Ada").toList, surname := ("L").toList, email := ("a@b.c").toList,
    address := ("X").toList, phone := ("5550001").toList }

/-- A sample user record (fresh account: balance 0, empty history). -/
def sampleRecord : UserRecord :=
  { tc_no := ("11111111111").toList, password := ("s:h").toList, resident := sampleResident }

/-- A one-user directory holding `sampleRecord` under phone `5550001`. -/
def sampleDb : Db := [(("5550001").toList, sampleRecord)]

/-- The two concrete `BankingService` implementations a command can hold. -/
inductive ServiceKind where
  | fiat
  | crypto
  deriving DecidableEq

/-- `services.PayBillCommand`: captures one payment intent immutably. -/
structure PayBillCommand where
  service : ServiceKind
  amount : ℚ
  bill_type : Str
  user_id : Str
  details : Option PayDetails := none
  location : Option Str := none
  deriving DecidableEq

/-- Dispatch `pay_bill` through the `BankingService` interface. -/
def serviceDispatchBill (k : ServiceKind) (db : Db) (amount : ℚ) (bt : Str)
    (uid : Str) (d : Option PayDetails) : (Bool × Msg) × Db :=
  match k with
  | .fiat => FiatPayment.pay_bill db amount bt uid d
  | .crypto => CryptoAdapter.pay_bill db amount bt uid d

/-- Dispatch `pay_parking` through the `BankingService` interface. -/
def serviceDispatchParking (k : ServiceKind) (db : Db) (amount : ℚ)
    (location : Option Str) (uid : Str) (d : Option PayDetails) : (Bool × Msg) × Db :=
  match k with
  | .fiat => FiatPayment.pay_parking db amount location uid d
  | .crypto => CryptoAdapter.pay_parking db amount location uid d

namespace PayBillCommand

/-- `PayBillCommand.execute`: `pay_parking` when the bill type literal is
`"Parking"`, else `pay_bill`; acts on the shared user directory. -/
def execute (c : PayBillCommand) (db : Db) : (Bool × Msg) × Db :=
  if c.bill_type = ("Parking").toList then
    serviceDispatchParking c.service db c.amount c.location c.user_id c.details
  else
    serviceDispatchBill c.service db c.amount c.bill_type c.user_id c.details

end PayBillCommand

/-- The mutable state of the `CityController` singleton relevant to the
command slot, the log buffer and the user directory. -/
structure ControllerState where
  current_command : Option PayBillCommand := none
  logs : List Str := []
  user_db_ref : Db := []
  deriving DecidableEq

/-- A controller in its initial state (`CityController.__init__`). -/
def emptyController : ControllerState := {}

namespace CityController

/-- `CityController.set_command`. -/
def set_command (s : ControllerState) (c : PayBillCommand) : ControllerState :=
  { s with current_command := some c }

/-- `CityController.execute_command`: runs the held command against the
user directory; the slot itself is left untouched by the source. -/
def execute_command (s : ControllerState) : (Bool × Msg) × ControllerState :=
  match s.current_command with
  | some c =>
    let r := PayBillCommand.execute c s.user_db_ref
    (r.1, { s with user_db_ref := r.2 })
  | none => ((false, .noCommand), s)

/-- `CityController.log`: trims the buffer to its last 4000 entries when it
holds more than 5000, then appends (`self.logs[-4000:]` is
`drop (length - 4000)`). -/
def log (s : ControllerState) (message : Str) : ControllerState :=
  let logs := if s.logs.length > 5000 then s.logs.drop (s.logs.length - 4000) else s.logs
  { s with logs := logs ++ [message] }

/-- Repeatedly calling `CityController.log`, once per message. -/
def logIter (s : ControllerState) : List Str → ControllerState
  | [] => s
  | m :: ms => logIter (log s m) ms

/-- An observer's `update` capability: it may transform the outside world
`ω` or raise an exception `ε` (`core_patterns.Observer`). -/
abbrev ObserverFn (ω ε : Type) := Str → ω → Except ε ω

/-- `CityController.add_observer`: appends unless the registry already
holds more than 5000 entries (then the add is silently dropped). -/
def add_observer {ω ε : Type} (observers : List (ObserverFn ω ε)) (o : ObserverFn ω ε) :
    List (ObserverFn ω ε) :=
  if observers.length > 5000 then observers else observers ++ [o]

/-- The delivery loop of `CityController.notify_observers`
(`for obs in self.observers: try: obs.update(message) except: pass`),
instrumented with the per-observer outcome trace: one entry per observer,
in registration order; `true` means `update` returned, `false` means it
raised and the exception was swallowed (world left as it was). -/
def runObservers {ω ε : Type} (observers : List (ObserverFn ω ε)) (message : Str)
    (w : ω) : ω × List Bool :=
  match observers with
  | [] => (w, [])
  | o :: rest =>
    match o message w with
    | .ok w' =>
      let r := runObservers rest message w'
      (r.1, true :: r.2)
    | .error _ =>
      let r := runObservers rest message w
      (r.1, false :: r.2)

/-- `CityController.notify_observers`: records the broadcast in the log
buffer, then runs the delivery loop; the Python method returns `None`, so
the caller receives only the new controller state and world — no
per-observer outcome. -/
def notify_observers {ω ε : Type} (s : ControllerState) (observers : List (ObserverFn ω ε))
    (message : Str) (w : ω) : ControllerState × ω :=
  (log s (("Broadcast: ").toList ++ message), (runObservers observers message w).1)

end CityController

/-- `models.SmartHomeSystem` state: the owner's phone and the private
`__history_logs` list. -/
structure SmartHomeSystem where
  owner_phone : Str
  history_logs : List Str := []
  deriving DecidableEq

namespace SmartHomeSystem

/-- `SmartHomeSystem.get_logs_secure`: the full log list for the owner,
the access-denied sentinel for anyone else; a pure read. -/
def get_logs_secure (h : SmartHomeSystem) (requester_phone : Str) :
    List Str × SmartHomeSystem :=
  if requester_phone = h.owner_phone then (h.history_logs, h)
  else ([("Access Denied: Unauthorized Operation.").toList], h)

end SmartHomeSystem

/-- A well-behaved sample observer: appends a visit mark to the world. -/
def okObserver (n : Nat) : CityController.ObserverFn (List Nat) Unit :=
  fun _ w => .ok (w ++ [n])

/-- A sample observer whose update always raises. -/
def badObserver : CityController.ObserverFn (List Nat) Unit :=
  fun _ _ => .error ()

/-- A funded copy of the sample record (balance 100). -/
def richRecord : UserRecord := { sampleRecord with balance := 100 }

/-- A one-user directory whose user has balance 100. -/
def richDb : Db := [(("5550001").toList, richRecord)]

/-- A concrete electricity-bill command over the fiat service. -/
def sampleCommand : PayBillCommand :=
  { service := .fiat, amount := 40, bill_type := ("Electricity").toList,
    user_id := ("5550001").toList }

/-- The controller state after setting `sampleCommand` and executing once. -/
def cmdS1 : ControllerState :=
  (CityController.execute_command
    (CityController.set_command { user_db_ref := richDb } sampleCommand)).2

/-- The controller state after executing a second time with no intervening
`set_command`. -/
def cmdS2 : ControllerState := (CityController.execute_command cmdS1).2

/-! Security module (`security.py` / `config.py`). -/

/-- `config.MAX_INPUT_LENGTH`. -/
def MAX_INPUT_LENGTH : Nat := 3000

/-- `config.RATE_LIMIT_WINDOW` (seconds). -/
def RATE_LIMIT_WINDOW : ℚ := 60

/-- `config.MAX_REQUESTS_PER_WINDOW`. -/
def MAX_REQUESTS_PER_WINDOW : Nat := 5

/-- ASCII lower-casing of one character (`re.IGNORECASE` matching on the
ASCII pattern literals of `prevent_sql_injection`). -/
def toLowerChar (c : Char) : Char :=
  if 'A' ≤ c ∧ c ≤ 'Z' then Char.ofNat (c.toNat + 32) else c

/-- Case-insensitive test that `pat` occurs at the head of `s`. -/
def matchesAt (pat s : List Char) : Bool :=
  (s.take pat.length).map toLowerChar == pat.map toLowerChar

/-- One left-to-right pass removing every (non-overlapping) occurrence of
`pat`, as `re.sub(pat, "", s)` does; `fuel` bounds the recursion by the
input length (each step consumes at least one character). -/
def stripPatAux (pat : List Char) : Nat → List Char → List Char
  | _, [] => []
  | 0, s => s
  | fuel + 1, c :: rest =>
    if matchesAt pat (c :: rest) then stripPatAux pat fuel (List.drop pat.length (c :: rest))
    else c :: stripPatAux pat fuel rest

/-- `re.sub(pat, "", s, flags=re.IGNORECASE)` for a literal pattern. -/
def stripPat (s pat : List Char) : List Char :=
  stripPatAux pat s.length s

/-- The pattern list of `prevent_sql_injection` (each regex is a literal
once unescaped). -/
def sqlPatterns : List (List Char) :=
  [(";").toList, ("--").toList, ("/*").toList, ("*/").toList, ("xp_").toList,
   ("UNION").toList, ("SELECT").toList, ("DROP").toList, ("INSERT").toList,
   ("DELETE").toList, ("UPDATE").toList]

/-- The single-quote character. -/
def squote : Char := Char.ofNat 39

/-- Python `s.replace("'", "''")`. -/
def doubleQuotes : List Char → List Char
  | [] => []
  | c :: rest =>
    if c = squote then squote :: squote :: doubleQuotes rest
    else c :: doubleQuotes rest

/-- `security.prevent_sql_injection` on a string input: strips each
pattern in order (case-insensitively), then doubles single quotes. -/
def prevent_sql_injection (input_val : List Char) : List Char :=
  doubleQuotes (sqlPatterns.foldl stripPat input_val)

/-- Messages returned by `check_security`; one constructor per literal
message string of the source. -/
inductive SecMsg where
  /-- `"System cannot be run in debug mode."` -/
  | debugMode
  /-- `"Data size is too large."` -/
  | dataTooLarge
  /-- `"Invalid characters detected."` -/
  | invalidChars
  /-- `"You have sent too many requests. Please wait."` -/
  | tooManyRequests
  /-- `"Safe"` -/
  | safe
  deriving DecidableEq

/-- The global mutable state `check_security` reads and writes: the
`config.request_history` dict (absent keys read as `[]`) and whether
`sys.gettrace` reports an active trace hook. -/
structure SecState where
  request_history : Str → List ℚ
  debugger_active : Bool := false

/-- `security.check_debugger_active`. -/
def check_debugger_active (st : SecState) : Bool := st.debugger_active

/-- The request timestamps for `user_id` still inside the sliding window
at time `now` (`[t for t in hist if current_time - t < RATE_LIMIT_WINDOW]`). -/
def prunedHistory (st : SecState) (now : ℚ) (user_id : Str) : List ℚ :=
  (st.request_history user_id).filter (fun t => now - t < RATE_LIMIT_WINDOW)

/-- `security.check_security` at time `now` for a string input: debugger
gate, size gate, character gate, then the sliding-window rate limiter
(prune, refuse at 5 kept timestamps, else record `now`). -/
def check_security (st : SecState) (now : ℚ) (input_str : Str) (user_id : Str) :
    (Bool × SecMsg) × SecState :=
  if check_debugger_active st then ((false, .debugMode), st)
  else if input_str ≠ [] ∧ input_str.length > MAX_INPUT_LENGTH then
    ((false, .dataTooLarge), st)
  else if prevent_sql_injection input_str ≠ doubleQuotes input_str then
    ((false, .invalidChars), st)
  else
    let pruned := prunedHistory st now user_id
    if pruned.length ≥ MAX_REQUESTS_PER_WINDOW then
      ((false, .tooManyRequests),
       { st with request_history := fun k => if k = user_id then pruned
                                             else st.request_history k })
    else
      ((true, .safe),
       { st with request_history := fun k => if k = user_id then pruned ++ [now]
                                             else st.request_history k })

/-- Repeated `check_security` calls with a fixed input and identity, one
per timestamp, collecting the returned success flags. -/
def iterChecks (input_str : Str) (user_id : Str) :
    SecState → List ℚ → List Bool × SecState
  | st, [] => ([], st)
  | st, now :: rest =>
    let r := check_security st now input_str user_id
    let r' := iterChecks input_str user_id r.2 rest
    (r.1.1 :: r'.1, r'.2)

/-- An empty security state: no recorded requests, no debugger. -/
def secState0 : SecState :=
  { request_history := fun _ => [], debugger_active := false }

/-- A security state whose one recorded timestamp (for every identity) is
100 seconds before time 0. -/
def secStateStale : SecState :=
  { request_history := fun _ => [(-100 : ℚ)], debugger_active := false }

/-! Password hashing (`SecurityManager.hash_password` / `verify_password`).
`hashlib.sha256` is embedded as the SHA-256 algorithm itself, over the
UTF-8 bytes of the salted input; `secrets.token_hex(16)` salts are
modelled by the explicit `salt` argument that the source already accepts. -/

/-- UTF-8 encoding of one character (Python `str.encode()`). -/
def utf8EncodeChar (c : Char) : List Nat :=
  let n := c.toNat
  if n < 128 then [n]
  else if n < 2048 then [192 + n / 64, 128 + n % 64]
  else if n < 65536 then [224 + n / 4096, 128 + (n / 64) % 64, 128 + n % 64]
  else [240 + n / 262144, 128 + (n / 4096) % 64, 128 + (n / 64) % 64, 128 + n % 64]

/-- UTF-8 encoding of a string. -/
def utf8Encode (s : Str) : List Nat := (s.map utf8EncodeChar).flatten

/-- Truncation to a 32-bit word. -/
def w32 (n : Nat) : Nat := n % 4294967296

/-- 32-bit right rotation. -/
def rotr (k x : Nat) : Nat := w32 ((x >>> k) ||| (x <<< (32 - k)))

/-- The SHA-256 `Ch` function (`¬x` as one's complement below 2^32). -/
def shaCh (x y z : Nat) : Nat := (x &&& y) ^^^ ((4294967295 - x) &&& z)

/-- The SHA-256 `Maj` function. -/
def shaMaj (x y z : Nat) : Nat := (x &&& y) ^^^ (x &&& z) ^^^ (y &&& z)

/-- The SHA-256 `Σ0` function. -/
def bigSigma0 (x : Nat) : Nat := rotr 2 x ^^^ rotr 13 x ^^^ rotr 22 x

/-- The SHA-256 `Σ1` function. -/
def bigSigma1 (x : Nat) : Nat := rotr 6 x ^^^ rotr 11 x ^^^ rotr 25 x

/-- The SHA-256 `σ0` function. -/
def smallSigma0 (x : Nat) : Nat := rotr 7 x ^^^ rotr 18 x ^^^ (x >>> 3)

/-- The SHA-256 `σ1` function. -/
def smallSigma1 (x : Nat) : Nat := rotr 17 x ^^^ rotr 19 x ^^^ (x >>> 10)

/-- The 64 SHA-256 round constants. -/
def shaK : List Nat :=
  [1116352408, 1899447441, 3049323471, 3921009573, 961987163, 1508970993,
   2453635748, 2870763221, 3624381080, 310598401, 607225278, 1426881987,
   1925078388, 2162078206, 2614888103, 3248222580, 3835390401, 4022224774,
   264347078, 604807628, 770255983, 1249150122, 1555081692, 1996064986,
   2554220882, 2821834349, 2952996808, 3210313671, 3336571891, 3584528711,
   113926993, 338241895, 666307205, 773529912, 1294757372, 1396182291,
   1695183700, 1986661051, 2177026350, 2456956037, 2730485921, 2820302411,
   3259730800, 3345764771, 3516065817, 3600352804, 4094571909, 275423344,
   430227734, 506948616, 659060556, 883997877, 958139571, 1322822218,
   1537002063, 1747873779, 1955562222, 2024104815, 2227730452, 2361852424,
   2428436474, 2756734187, 3204031479, 3329325298]

/-- The 8-byte big-endian bit-length field of the SHA-256 padding. -/
def shaLenBytes (len : Nat) : List Nat :=
  (List.range 8).map (fun i => ((8 * len) >>> (8 * (7 - i))) % 256)

/-- SHA-256 padding: `0x80`, zeros up to 56 mod 64, then the bit length. -/
def shaPad (msg : List Nat) : List Nat :=
  msg ++ 128 :: List.replicate ((120 - ((msg.length + 1) % 64)) % 64) 0 ++
    shaLenBytes msg.length

/-- Group bytes into big-endian 32-bit words. -/
def bytesToWords : List Nat → List Nat
  | a :: b :: c :: d :: rest =>
    (a * 16777216 + b * 65536 + c * 256 + d) :: bytesToWords rest
  | _ => []

/-- Extend the 16 chunk words to the 64-word message schedule (`fuel` is
the number of words still to append, 48 from the top). -/
def shaExtend : Nat → List Nat → List Nat
  | 0, w => w
  | fuel + 1, w =>
    let i := w.length
    let nw := w32 (smallSigma1 (w.getD (i - 2) 0) + w.getD (i - 7) 0 +
                   smallSigma0 (w.getD (i - 15) 0) + w.getD (i - 16) 0)
    shaExtend fuel (w ++ [nw])

/-- The eight 32-bit working variables of SHA-256. -/
structure Sha8 where
  a : Nat
  b : Nat
  c : Nat
  d : Nat
  e : Nat
  f : Nat
  g : Nat
  h : Nat
  deriving DecidableEq

/-- The 64 compression rounds, consuming `(K_t, W_t)` pairs. -/
def shaRounds : List (Nat × Nat) → Sha8 → Sha8
  | [], s => s
  | (kt, wt) :: rest, s =>
    let t1 := w32 (s.h + bigSigma1 s.e + shaCh s.e s.f s.g + kt + wt)
    let t2 := w32 (bigSigma0 s.a + shaMaj s.a s.b s.c)
    shaRounds rest ⟨w32 (t1 + t2), s.a, s.b, s.c, w32 (s.d + t1), s.e, s.f, s.g⟩

/-- The SHA-256 initial hash value. -/
def shaH0 : Sha8 :=
  ⟨1779033703, 3144134277, 1013904242, 2773480762,
   1359893119, 2600822924, 528734635, 1541459225⟩

/-- Process the padded message chunk by chunk (16 words each); `fuel`
bounds the recursion by the word count. -/
def shaChunks : Nat → List Nat → Sha8 → Sha8
  | 0, _, s => s
  | fuel + 1, ws, s =>
    match ws with
    | [] => s
    | _ :: _ =>
      let chunk := shaExtend 48 (ws.take 16)
      let r := shaRounds (shaK.zip chunk) s
      shaChunks fuel (ws.drop 16)
        ⟨w32 (s.a + r.a), w32 (s.b + r.b), w32 (s.c + r.c), w32 (s.d + r.d),
         w32 (s.e + r.e), w32 (s.f + r.f), w32 (s.g + r.g), w32 (s.h + r.h)⟩

/-- Combine the final state words into the 256-bit digest value. -/
def shaOut (s : Sha8) : Nat :=
  ((((((s.a * 4294967296 + s.b) * 4294967296 + s.c) * 4294967296 + s.d) * 4294967296
      + s.e) * 4294967296 + s.f) * 4294967296 + s.g) * 4294967296 + s.h

/-- SHA-256 digest of a byte string, as a natural number below 2^256
(`hashlib.sha256(...)`). -/
def sha256Nat (msg : List Nat) : Nat :=
  shaOut (shaChunks (bytesToWords (shaPad msg)).length (bytesToWords (shaPad msg)) shaH0)

/-- Lowercase hex digit characters, as Python `hexdigest` produces. -/
def nibbleChar (k : Nat) : Char :=
  if k < 10 then Char.ofNat (48 + k) else Char.ofNat (87 + k)

/-- The 64-character lowercase hex digest of a 256-bit value
(`.hexdigest()`). -/
def hexDigest (n : Nat) : Str :=
  (List.range 64).map (fun i => nibbleChar ((n >>> (4 * (63 - i))) % 16))

/-- Python `s.split(':')`. -/
def splitOnColon : Str → List Str
  | [] => [[]]
  | c :: rest =>
    if c = ':' then [] :: splitOnColon rest
    else
      match splitOnColon rest with
      | [] => [[c]]
      | p :: ps => (c :: p) :: ps

namespace SecurityManager

/-- `SecurityManager.hash_password` with the salt explicit (the source
draws `secrets.token_hex(16)` when no salt is supplied):
`f"{salt}:{sha256(salt + plain).hexdigest()}"`. -/
def hash_password (plain_password salt : Str) : Str :=
  salt ++ ':' :: hexDigest (sha256Nat (utf8Encode (salt ++ plain_password)))

/-- `SecurityManager.verify_password`: splits the stored value on `:`,
recomputes the hash with the extracted salt, compares digests; the
`ValueError` path (either unpacking finds a part count other than two)
returns `False`. -/
def verify_password (stored_password provided_password : Str) : Bool :=
  match splitOnColon stored_password with
  | [salt, stored_hash] =>
    match splitOnColon (hash_password provided_password salt) with
    | [_, new_hash] => new_hash == stored_hash
    | _ => false
  | _ => false

end SecurityManager

/-- All eight working variables below 2^32. -/
def sha8Bounded (s : Sha8) : Prop :=
  s.a < 4294967296 ∧ s.b < 4294967296 ∧ s.c < 4294967296 ∧ s.d < 4294967296 ∧
  s.e < 4294967296 ∧ s.f < 4294967296 ∧ s.g < 4294967296 ∧ s.h < 4294967296

/-! Registration (`controller.Login.register`). -/

/-- The observer objects `register` adds to the controller registry. -/
inductive ObserverObj where
  | resident (r : Resident)
  | mail (email : Str)
  deriving DecidableEq

/-- `CityController.add_observer` at the registry level used by
`register`: silently dropped beyond the 5000 cap. -/
def addObserverObj (observers : List ObserverObj) (o : ObserverObj) :
    List ObserverObj :=
  if observers.length > 5000 then observers else observers ++ [o]

/-- `models.Resident.__init__`: sanitizes name and surname (once more, on
top of what `register` already did) and raises `ValueError` when either
exceeds `MAX_INPUT_LENGTH`. -/
def mkResident (name surname email address phone : Str) :
    Except Str Resident :=
  let safe_name := prevent_sql_injection name
  let safe_surname := prevent_sql_injection surname
  if safe_name.length > MAX_INPUT_LENGTH ∨ safe_surname.length > MAX_INPUT_LENGTH then
    .error (("Name or surname is invalid!").toList)
  else
    .ok { name := safe_name, surname := safe_surname, email := email,
          address := address, phone := phone }

/-- The duplicate national-id scan of `register`
(`for record in self.authorized_users.values(): if record.tc_no == tc_no`). -/
def tcExists (db : Db) (tc_no : Str) : Bool :=
  db.any (fun kv => kv.2.tc_no == tc_no)

/-- The state `Login.register` reads and writes: the user directory, the
global security state and the controller's observer registry. -/
structure LoginState where
  authorized_users : Db
  sec : SecState
  observers : List ObserverObj

namespace Login

/-- `Login.register` at time `now`, with the random salt that
`hash_password` would draw made explicit. `Except` carries the
`ValueError` the `Resident` constructor can raise; `.ok` carries the
source's boolean result. Both security-gate calls run (and update the
rate ledger) before their conjunction is tested, exactly as in the
source. -/
def register (ls : LoginState) (now : ℚ) (salt : Str)
    (tc_no name surname email address phone password : Str) :
    Except Str (Bool × LoginState) :=
  let r1 := check_security ls.sec now tc_no (("guest").toList)
  let r2 := check_security r1.2 now (("register").toList) phone
  let ls1 : LoginState := { ls with sec := r2.2 }
  if r1.1.1 && r2.1.1 then
    let clean_name := prevent_sql_injection name
    let clean_surname := prevent_sql_injection surname
    if tcExists ls.authorized_users tc_no then .ok (false, ls1)
    else
      let hashed_password := SecurityManager.hash_password password salt
      match mkResident clean_name clean_surname email address phone with
      | .error e => .error e
      | .ok resident =>
        let db' := dictSet ls.authorized_users phone
          { tc_no := tc_no, password := hashed_password, resident := resident }
        let obs1 := addObserverObj ls1.observers (.resident resident)
        let obs2 := if email ≠ [] ∧ '@' ∈ email then addObserverObj obs1 (.mail email)
                    else obs1
        .ok (true, { ls1 with authorized_users := db', observers := obs2 })
  else .ok (false, ls1)

end Login

/-- An initial login state with an empty directory, empty rate ledger and
no observers. -/
def regLs0 : LoginState :=
  { authorized_users := [], sec := secState0, observers := [] }

/-- A login state whose directory already holds `sampleRecord` under
phone `5550001`. -/
def regLs1 : LoginState :=
  { authorized_users := sampleDb, sec := secState0, observers := [] }

/-- Looking a key up after setting it yields the stored value. -/
theorem dictGet_dictSet (db : Db) (k : Str) (v : UserRecord) :
    dictGet (dictSet db k v) k = some v := by
  induction db with
  | nil => simp [dictGet, dictSet]
  | cons kv rest ih =>
    by_cases h : kv.1 = k <;> simp [dictGet, dictSet, h, ih]

/-- C1: for 0 < a ≤ 1,000,000 and a user id present in the directory,
`load_money` (fiat and crypto) returns success, increases that user's
balance by exactly `a`, and appends exactly one history entry. -/
theorem load_money_valid_amount_credits (db : Db) (uid : Str) (a : ℚ) (u : UserRecord)
    (hlo : 0 < a) (hhi : a ≤ 1000000) (hu : dictGet db uid = some u) :
    (FiatPayment.load_money db uid a).1.1 = true ∧
    dictGet (FiatPayment.load_money db uid a).2 uid =
      some { u with balance := u.balance + a, history := u.history ++ [.deposit a] } ∧
    (CryptoAdapter.load_money db uid a).1.1 = true ∧
    dictGet (CryptoAdapter.load_money db uid a).2 uid =
      some { u with balance := u.balance + a, history := u.history ++ [.cryptoDeposit a] } := by
  have h1 : ¬(a ≤ 0 ∨ a > 1000000) := by
    push_neg
    exact ⟨hlo, hhi⟩
  have h2 : ¬(a ≤ 0) := not_le.mpr hlo
  refine ⟨?_, ?_, ?_, ?_⟩
  · simp [FiatPayment.load_money, h1, hu]
  · simp [FiatPayment.load_money, h1, hu, dictGet_dictSet]
  · simp [CryptoAdapter.load_money, h2, hu]
  · simp [CryptoAdapter.load_money, h2, hu, dictGet_dictSet]

/-- C1 witness: loading 5 TL onto the sample account. -/
theorem load_money_valid_amount_credits_witness :
    (FiatPayment.load_money sampleDb (("5550001").toList) 5).1.1 = true ∧
    dictGet (FiatPayment.load_money sampleDb (("5550001").toList) 5).2 (("5550001").toList) =
      some { sampleRecord with balance := sampleRecord.balance + 5,
                               history := sampleRecord.history ++ [.deposit 5] } ∧
    (CryptoAdapter.load_money sampleDb (("5550001").toList) 5).1.1 = true ∧
    dictGet (CryptoAdapter.load_money sampleDb (("5550001").toList) 5).2 (("5550001").toList) =
      some { sampleRecord with balance := sampleRecord.balance + 5,
                               history := sampleRecord.history ++ [.cryptoDeposit 5] } :=
  load_money_valid_amount_credits sampleDb (("5550001").toList) 5 sampleRecord
    (by norm_num) (by norm_num) (by decide)

/-- C2 counterexample: the crypto service accepts an amount of 2,000,000
(> 1,000,000): it returns success and credits the balance from 0 to
2,000,000, so the claim that both services reject such amounts and leave
state unchanged fails. -/
theorem load_money_crypto_accepts_over_limit :
    (2000000 : ℚ) > 1000000 ∧
    (CryptoAdapter.load_money sampleDb (("5550001").toList) 2000000).1.1 = true ∧
    dictGet (CryptoAdapter.load_money sampleDb (("5550001").toList) 2000000).2
        (("5550001").toList) =
      some { sampleRecord with balance := 2000000,
                               history := [.cryptoDeposit 2000000] } ∧
    sampleRecord.balance = 0 := by
  have h2 : ¬((2000000 : ℚ) ≤ 0) := by norm_num
  have hu : dictGet sampleDb (("5550001").toList) = some sampleRecord := by decide
  refine ⟨by norm_num, ?_, ?_, rfl⟩
  · unfold CryptoAdapter.load_money
    rw [if_neg h2, hu]
  · unfold CryptoAdapter.load_money
    rw [if_neg h2, hu]
    simp [dictGet_dictSet, sampleRecord, sampleResident]

/-- C2 (amended): the fiat service rejects `a ≤ 0` and `a > 1,000,000`
unchanged; the crypto service only rejects `a ≤ 0` — for `a > 1,000,000`
and a known user it succeeds and credits the balance. -/
theorem load_money_invalid_amount (db : Db) (uid : Str) (a : ℚ)
    (ha : a ≤ 0 ∨ a > 1000000) :
    FiatPayment.load_money db uid a = ((false, .invalidAmountFiat), db) ∧
    (a ≤ 0 → CryptoAdapter.load_money db uid a = ((false, .invalidCrypto), db)) ∧
    (a > 1000000 → ∀ u, dictGet db uid = some u →
      (CryptoAdapter.load_money db uid a).1.1 = true ∧
      dictGet (CryptoAdapter.load_money db uid a).2 uid =
        some { u with balance := u.balance + a,
                      history := u.history ++ [.cryptoDeposit a] }) := by
  refine ⟨?_, ?_, ?_⟩
  · unfold FiatPayment.load_money
    rw [if_pos ha]
  · intro h
    unfold CryptoAdapter.load_money
    rw [if_pos h]
  · intro h u hu
    have h2 : ¬(a ≤ 0) := by linarith
    constructor
    · simp [CryptoAdapter.load_money, h2, hu]
    · simp [CryptoAdapter.load_money, h2, hu, dictGet_dictSet]

/-- C2 witness: a = -3 is rejected by both services; a = 2,000,000 is
rejected by fiat but credited by crypto. -/
theorem load_money_invalid_amount_witness :
    (FiatPayment.load_money sampleDb (("5550001").toList) (-3) =
      ((false, .invalidAmountFiat), sampleDb) ∧
     CryptoAdapter.load_money sampleDb (("5550001").toList) (-3) =
      ((false, .invalidCrypto), sampleDb)) ∧
    (FiatPayment.load_money sampleDb (("5550001").toList) 2000000 =
      ((false, .invalidAmountFiat), sampleDb) ∧
     dictGet (CryptoAdapter.load_money sampleDb (("5550001").toList) 2000000).2
        (("5550001").toList) =
      some { sampleRecord with balance := sampleRecord.balance + 2000000,
                               history := sampleRecord.history ++ [.cryptoDeposit 2000000] }) := by
  have hneg := load_money_invalid_amount sampleDb (("5550001").toList) (-3) (.inl (by norm_num))
  have hbig := load_money_invalid_amount sampleDb (("5550001").toList) 2000000 (.inr (by norm_num))
  exact ⟨⟨hneg.1, hneg.2.1 (by norm_num)⟩,
         ⟨hbig.1, (hbig.2.2 (by norm_num) sampleRecord (by decide)).2⟩⟩

/-- C3: `pay_bill` (fiat and crypto) never drives a non-negative balance
negative, and with insufficient balance and no external instrument it
fails with the insufficient-balance message, leaving the directory
unchanged. -/
theorem pay_bill_never_negative (db : Db) (amount : ℚ) (bt : Str) (uid : Str)
    (details : Option PayDetails) (u : UserRecord)
    (hu : dictGet db uid = some u) (hb : 0 ≤ u.balance) :
    (∀ v, dictGet (FiatPayment.pay_bill db amount bt uid details).2 uid = some v →
      0 ≤ v.balance) ∧
    (∀ v, dictGet (CryptoAdapter.pay_bill db amount bt uid details).2 uid = some v →
      0 ≤ v.balance) ∧
    (u.balance < amount → hasCard details = false →
      FiatPayment.pay_bill db amount bt uid details = ((false, .insufficientBalanceFiat), db)) ∧
    (u.balance < amount → hasWallet details = false →
      CryptoAdapter.pay_bill db amount bt uid details =
        ((false, .insufficientBalanceCrypto), db)) := by
  refine ⟨?_, ?_, ?_, ?_⟩
  · intro v hv
    by_cases hle : amount ≤ 0
    · have hdb : (FiatPayment.pay_bill db amount bt uid details).2 = db := by
        simp [FiatPayment.pay_bill, hle]
      rw [hdb, hu] at hv
      cases hv
      exact hb
    · by_cases hc : hasCard details = true
      · have hdb : (FiatPayment.pay_bill db amount bt uid details).2 =
            dictSet db uid { u with history := u.history ++ [.cardPayment amount] } := by
          simp [FiatPayment.pay_bill, hle, hu, hc]
        rw [hdb, dictGet_dictSet] at hv
        cases hv
        exact hb
      · by_cases hge : u.balance ≥ amount
        · have hdb : (FiatPayment.pay_bill db amount bt uid details).2 =
              dictSet db uid { u with balance := u.balance - amount,
                                      history := u.history ++ [.balancePayment amount] } := by
            simp [FiatPayment.pay_bill, hle, hu, hc, hge]
          rw [hdb, dictGet_dictSet] at hv
          cases hv
          show (0 : ℚ) ≤ u.balance - amount
          linarith
        · have hdb : (FiatPayment.pay_bill db amount bt uid details).2 = db := by
            simp [FiatPayment.pay_bill, hle, hu, hc, hge]
          rw [hdb, hu] at hv
          cases hv
          exact hb
  · intro v hv
    by_cases hle : amount ≤ 0
    · have hdb : (CryptoAdapter.pay_bill db amount bt uid details).2 = db := by
        simp [CryptoAdapter.pay_bill, hle]
      rw [hdb, hu] at hv
      cases hv
      exact hb
    · by_cases hc : hasWallet details = true
      · have hdb : (CryptoAdapter.pay_bill db amount bt uid details).2 =
            dictSet db uid { u with history := u.history ++ [.cryptoPayment amount] } := by
          simp [CryptoAdapter.pay_bill, hle, hu, hc]
        rw [hdb, dictGet_dictSet] at hv
        cases hv
        exact hb
      · by_cases hge : u.balance ≥ amount
        · have hdb : (CryptoAdapter.pay_bill db amount bt uid details).2 =
              dictSet db uid { u with balance := u.balance - amount,
                                      history := u.history ++ [.balancePayment amount] } := by
            simp [CryptoAdapter.pay_bill, hle, hu, hc, hge]
          rw [hdb, dictGet_dictSet] at hv
          cases hv
          show (0 : ℚ) ≤ u.balance - amount
          linarith
        · have hdb : (CryptoAdapter.pay_bill db amount bt uid details).2 = db := by
            simp [CryptoAdapter.pay_bill, hle, hu, hc, hge]
          rw [hdb, hu] at hv
          cases hv
          exact hb
  · intro hlt hc
    have hle : ¬(amount ≤ 0) := by linarith
    have hge : ¬(u.balance ≥ amount) := by linarith
    simp [FiatPayment.pay_bill, hle, hu, hc, hge]
  · intro hlt hc
    have hle : ¬(amount ≤ 0) := by linarith
    have hge : ¬(u.balance ≥ amount) := by linarith
    simp [CryptoAdapter.pay_bill, hle, hu, hc, hge]

/-- C3 witness: paying 7 TL from the sample account (balance 0, no card or
wallet) fails with the insufficient-balance message on both services and
leaves every looked-up balance non-negative. -/
theorem pay_bill_never_negative_witness :
    (∀ v, dictGet (FiatPayment.pay_bill sampleDb 7 (("Electricity").toList)
        (("5550001").toList) none).2 (("5550001").toList) = some v → 0 ≤ v.balance) ∧
    (∀ v, dictGet (CryptoAdapter.pay_bill sampleDb 7 (("Electricity").toList)
        (("5550001").toList) none).2 (("5550001").toList) = some v → 0 ≤ v.balance) ∧
    (sampleRecord.balance < 7 → hasCard none = false →
      FiatPayment.pay_bill sampleDb 7 (("Electricity").toList) (("5550001").toList) none =
        ((false, .insufficientBalanceFiat), sampleDb)) ∧
    (sampleRecord.balance < 7 → hasWallet none = false →
      CryptoAdapter.pay_bill sampleDb 7 (("Electricity").toList) (("5550001").toList) none =
        ((false, .insufficientBalanceCrypto), sampleDb)) :=
  pay_bill_never_negative sampleDb 7 (("Electricity").toList) (("5550001").toList)
    none sampleRecord (by decide) (by decide)

/-- C6: `get_logs_secure` returns the home's full log list exactly when
the requester is the owner, the single-element access-denied sentinel
otherwise, and never changes the stored logs. -/
theorem get_logs_secure_owner_only (h : SmartHomeSystem) (r : Str) :
    (SmartHomeSystem.get_logs_secure h r).1 =
      (if r = h.owner_phone then h.history_logs
       else [("Access Denied: Unauthorized Operation.").toList]) ∧
    (SmartHomeSystem.get_logs_secure h r).2 = h := by
  unfold SmartHomeSystem.get_logs_secure
  by_cases hr : r = h.owner_phone <;> simp [hr]

/-- Splitting the delivery loop at an append: the left block is delivered
first, the right block starts from the world the left block produced, and
the outcome traces concatenate in the same order. -/
theorem runObservers_append {ω ε : Type} (message : Str) (a b : List (CityController.ObserverFn ω ε)) :
    ∀ w : ω, CityController.runObservers (a ++ b) message w =
      ((CityController.runObservers b message (CityController.runObservers a message w).1).1,
       (CityController.runObservers a message w).2 ++
         (CityController.runObservers b message (CityController.runObservers a message w).1).2) := by
  induction a with
  | nil => intro w; simp [CityController.runObservers]
  | cons o rest ih =>
    intro w
    simp only [List.cons_append, CityController.runObservers]
    cases o message w with
    | ok w' => simp [ih w']
    | error e => simp [ih w]

/-- The delivery loop produces one trace entry per registered observer. -/
theorem runObservers_length {ω ε : Type} (message : Str)
    (observers : List (CityController.ObserverFn ω ε)) :
    ∀ w : ω, (CityController.runObservers observers message w).2.length = observers.length := by
  induction observers with
  | nil => intro w; simp [CityController.runObservers]
  | cons o rest ih =>
    intro w
    simp only [CityController.runObservers]
    cases o message w with
    | ok w' => simp [ih w']
    | error e => simp [ih w]

/-- C7: `notify_observers` invokes `update` on every registered observer
in registration order (one trace entry per observer, blocks delivered left
to right); an observer that raises is skipped silently — the world is as
if delivery had gone straight to the remaining observers, which are all
still invoked; and the caller gets back only the logged controller state,
with no per-observer failure information. -/
theorem notify_observers_fanout {ω ε : Type} (l1 l2 : List (CityController.ObserverFn ω ε))
    (bad : CityController.ObserverFn ω ε) (message : Str) (w : ω) (s : ControllerState)
    (hbad : ∀ w' : ω, ∃ e : ε, bad message w' = .error e) :
    (∀ (observers : List (CityController.ObserverFn ω ε)) (w0 : ω),
      (CityController.runObservers observers message w0).2.length = observers.length) ∧
    (∀ (a b : List (CityController.ObserverFn ω ε)) (w0 : ω),
      CityController.runObservers (a ++ b) message w0 =
        ((CityController.runObservers b message (CityController.runObservers a message w0).1).1,
         (CityController.runObservers a message w0).2 ++
           (CityController.runObservers b message (CityController.runObservers a message w0).1).2)) ∧
    (CityController.runObservers (l1 ++ bad :: l2) message w).1 =
      (CityController.runObservers (l1 ++ l2) message w).1 ∧
    (CityController.runObservers (l1 ++ bad :: l2) message w).2 =
      (CityController.runObservers l1 message w).2 ++
        false :: (CityController.runObservers l2 message
          (CityController.runObservers l1 message w).1).2 ∧
    (CityController.notify_observers s (l1 ++ bad :: l2) message w).1 =
      CityController.log s (("Broadcast: ").toList ++ message) := by
  obtain ⟨e1, he1⟩ := hbad (CityController.runObservers l1 message w).1
  refine ⟨fun observers w0 => runObservers_length message observers w0,
          fun a b w0 => runObservers_append message a b w0, ?_, ?_, rfl⟩
  · rw [runObservers_append message l1 (bad :: l2) w,
        runObservers_append message l1 l2 w]
    simp only [CityController.runObservers, he1]
  · rw [runObservers_append message l1 (bad :: l2) w]
    simp only [CityController.runObservers, he1]

/-- C7 witness: two well-behaved observers around one that always raises;
the world is a list of visit marks. -/
theorem notify_observers_fanout_witness :
    (∀ (observers : List (CityController.ObserverFn (List Nat) Unit)) (w0 : List Nat),
      (CityController.runObservers observers ([] : Str) w0).2.length = observers.length) ∧
    (∀ (a b : List (CityController.ObserverFn (List Nat) Unit)) (w0 : List Nat),
      CityController.runObservers (a ++ b) ([] : Str) w0 =
        ((CityController.runObservers b ([] : Str) (CityController.runObservers a ([] : Str) w0).1).1,
         (CityController.runObservers a ([] : Str) w0).2 ++
           (CityController.runObservers b ([] : Str) (CityController.runObservers a ([] : Str) w0).1).2)) ∧
    (CityController.runObservers ([okObserver 1] ++ badObserver :: [okObserver 2])
        ([] : Str) ([] : List Nat)).1 =
      (CityController.runObservers ([okObserver 1] ++ [okObserver 2]) ([] : Str) ([] : List Nat)).1 ∧
    (CityController.runObservers ([okObserver 1] ++ badObserver :: [okObserver 2])
        ([] : Str) ([] : List Nat)).2 =
      (CityController.runObservers [okObserver 1] ([] : Str) ([] : List Nat)).2 ++
        false :: (CityController.runObservers [okObserver 2] ([] : Str)
          (CityController.runObservers [okObserver 1] ([] : Str) ([] : List Nat)).1).2 ∧
    (CityController.notify_observers emptyController ([okObserver 1] ++ badObserver :: [okObserver 2])
        ([] : Str) ([] : List Nat)).1 =
      CityController.log emptyController (("Broadcast: ").toList ++ ([] : Str)) :=
  notify_observers_fanout [okObserver 1] [okObserver 2] badObserver ([] : Str)
    ([] : List Nat) emptyController (fun w' => ⟨(), rfl⟩)

/-- C8 counterexample: the source never clears `current_command`, so a
second `execute_command` without an intervening `set_command` re-runs the
payment — the balance drops from 100 to 60 and then to 20, with a second
history entry appended; the claimed `Executed` state (no re-run) does not
exist. -/
theorem execute_command_reruns_command :
    dictGet cmdS1.user_db_ref (("5550001").toList) =
      some { richRecord with balance := 60, history := [.balancePayment 40] } ∧
    dictGet cmdS2.user_db_ref (("5550001").toList) =
      some { richRecord with balance := 20,
                             history := [.balancePayment 40, .balancePayment 40] } ∧
    cmdS2 ≠ cmdS1 := by
  have h40 : ¬((40 : ℚ) ≤ 0) := by norm_num
  have hbt : (("Electricity").toList = ("Parking").toList) = False :=
    eq_false (by decide)
  have hpay1 : FiatPayment.pay_bill richDb 40 (("Electricity").toList)
      (("5550001").toList) none =
      ((true, .paidFromBalance 60),
       [(("5550001").toList,
         { richRecord with balance := 60, history := [.balancePayment 40] })]) := by
    unfold FiatPayment.pay_bill
    rw [if_neg h40]
    have hu : dictGet richDb (("5550001").toList) = some richRecord := by decide
    rw [hu]
    norm_num [hasCard, richRecord, sampleRecord, sampleResident, dictSet, richDb]
  have h1 : cmdS1 = { current_command := some sampleCommand,
                      user_db_ref := [(("5550001").toList,
                        { richRecord with balance := 60,
                                          history := [.balancePayment 40] })] } := by
    unfold cmdS1 CityController.set_command CityController.execute_command
    simp only [PayBillCommand.execute, sampleCommand, serviceDispatchBill, hbt,
      if_false]
    rw [hpay1]
  have hpay2 : FiatPayment.pay_bill
      [(("5550001").toList,
        { richRecord with balance := 60, history := [.balancePayment 40] })]
      40 (("Electricity").toList) (("5550001").toList) none =
      ((true, .paidFromBalance 20),
       [(("5550001").toList,
         { richRecord with balance := 20,
                           history := [.balancePayment 40, .balancePayment 40] })]) := by
    unfold FiatPayment.pay_bill
    rw [if_neg h40]
    have hu : dictGet
        [(("5550001").toList,
          { richRecord with balance := 60, history := [.balancePayment 40] })]
        (("5550001").toList) =
        some { richRecord with balance := 60, history := [.balancePayment 40] } := by
      decide
    rw [hu]
    norm_num [hasCard, richRecord, sampleRecord, sampleResident, dictSet]
  have h2 : cmdS2 = { current_command := some sampleCommand,
                      user_db_ref := [(("5550001").toList,
                        { richRecord with balance := 20,
                                          history := [.balancePayment 40, .balancePayment 40] })] } := by
    unfold cmdS2
    rw [h1]
    unfold CityController.execute_command
    simp only [PayBillCommand.execute, sampleCommand, serviceDispatchBill, hbt,
      if_false]
    rw [hpay2]
  refine ⟨?_, ?_, ?_⟩
  · rw [h1]
    decide
  · rw [h2]
    decide
  · rw [h1, h2]
    decide

/-- C8 (amended): the command slot follows
`Empty -> Set(cmd) -> Set(cmd)` — executing never clears or changes the
slot (so a later `execute_command` re-runs the held command);
`set_command` replaces any previous command (last write wins); and
`execute_command` on an empty slot reports failure without touching the
state. -/
theorem command_slot_behavior (s : ControllerState) (c c' : PayBillCommand) :
    (CityController.execute_command s).2.current_command = s.current_command ∧
    CityController.execute_command { s with current_command := none } =
      ((false, .noCommand), { s with current_command := none }) ∧
    (CityController.set_command (CityController.set_command s c) c').current_command
      = some c' ∧
    CityController.execute_command (CityController.set_command s c) =
      ((PayBillCommand.execute c s.user_db_ref).1,
       { s with current_command := some c,
                user_db_ref := (PayBillCommand.execute c s.user_db_ref).2 }) := by
  refine ⟨?_, rfl, rfl, rfl⟩
  cases hsc : s.current_command <;>
    simp [CityController.execute_command, hsc]

/-- Appending at most `5001 - current size` entries grows the log buffer
one per call (no trim fires below the 5000 threshold). -/
theorem logIter_length (ms : List Str) : ∀ s : ControllerState,
    s.logs.length + ms.length ≤ 5001 →
    (CityController.logIter s ms).logs.length = s.logs.length + ms.length := by
  induction ms with
  | nil =>
    intro s h
    simp [CityController.logIter]
  | cons m ms ih =>
    intro s h
    have hlen : (CityController.log s m).logs.length = s.logs.length + 1 := by
      unfold CityController.log
      rw [if_neg (by simp at h; omega)]
      simp
    simp only [CityController.logIter, List.length_cons]
    rw [ih (CityController.log s m) (by simp at h ⊢; omega), hlen]
    omega

/-- C9 counterexample: appending 5001 entries to an empty buffer leaves
5001 entries, not at most 4001 — the trim only fires on the call after the
buffer exceeds 5000, i.e. at the 5002nd append. -/
theorem log_buffer_5001_entries :
    (CityController.logIter emptyController
      (List.replicate 5001 ([] : Str))).logs.length = 5001 ∧
    ¬((CityController.logIter emptyController
      (List.replicate 5001 ([] : Str))).logs.length ≤ 4001) := by
  have hrep : (List.replicate 5001 ([] : Str)).length = 5001 :=
    List.length_replicate _ _
  have hempty : emptyController.logs.length = 0 := rfl
  have h := logIter_length (List.replicate 5001 ([] : Str)) emptyController
    (by rw [hrep, hempty])
  omega

/-- `logIter` over an append runs the two message blocks in sequence. -/
theorem logIter_append (a b : List Str) : ∀ s : ControllerState,
    CityController.logIter s (a ++ b) =
      CityController.logIter (CityController.logIter s a) b := by
  induction a with
  | nil => intro s; simp [CityController.logIter]
  | cons m ms ih =>
    intro s
    simp only [List.cons_append, CityController.logIter]
    exact ih (CityController.log s m)

/-- C9 (amended): the log buffer is bounded at 5001 entries (an append
keeps the size ≤ 5001 whenever it was ≤ 5001); after every append the
message just logged is the last entry of the buffer; and the cap/trim pair
(5000 / last 4000) means 5002 appends from an empty buffer — one more than
the claimed 5001 — leave exactly 4001 entries. -/
theorem log_buffer_bounded (s : ControllerState) (m : Str) (ms : List Str)
    (hinv : s.logs.length ≤ 5001) (hms : ms.length = 5002) :
    (CityController.log s m).logs.length ≤ 5001 ∧
    (CityController.log s m).logs.getLast? = some m ∧
    (CityController.logIter emptyController ms).logs.length = 4001 := by
  have hempty : emptyController.logs.length = 0 := rfl
  refine ⟨?_, ?_, ?_⟩
  · unfold CityController.log
    by_cases hbig : s.logs.length > 5000
    · rw [if_pos hbig]
      simp only [List.length_append, List.length_drop, List.length_cons,
        List.length_nil]
      omega
    · rw [if_neg hbig]
      simp only [List.length_append, List.length_cons, List.length_nil]
      omega
  · unfold CityController.log
    split <;> simp
  · obtain ⟨a, last, ha, halen⟩ : ∃ a last, ms = a ++ [last] ∧ a.length = 5001 := by
      rcases List.eq_nil_or_concat ms with h | ⟨a, last, h⟩
      · rw [h] at hms
        simp at hms
      · have hlen := congrArg List.length h
        rw [List.concat_eq_append] at h
        refine ⟨a, last, h, ?_⟩
        simp [List.length_concat] at hlen
        omega
    rw [ha, logIter_append a [last] emptyController]
    have hlen : (CityController.logIter emptyController a).logs.length = 5001 := by
      have := logIter_length a emptyController (by rw [hempty, halen])
      rw [hempty, halen] at this
      omega
    simp only [CityController.logIter, CityController.log, hlen]
    rw [if_pos (by omega)]
    simp only [List.length_append, List.length_drop, List.length_cons,
      List.length_nil, hlen]

/-- C9 witness: 5002 empty messages appended to an empty controller. -/
theorem log_buffer_bounded_witness :
    (CityController.log emptyController ([] : Str)).logs.length ≤ 5001 ∧
    (CityController.log emptyController ([] : Str)).logs.getLast? = some ([] : Str) ∧
    (CityController.logIter emptyController
      (List.replicate 5002 ([] : Str))).logs.length = 4001 :=
  log_buffer_bounded emptyController ([] : Str) (List.replicate 5002 ([] : Str))
    (by rw [show emptyController.logs.length = 0 from rfl]; omega)
    (List.length_replicate _ _)

/-- A `check_security` call that passes the debugger, size and character
gates and is under the rate limit: it is allowed and records `now` for its
identity. -/
theorem check_security_allowed (st : SecState) (now : ℚ) (input_str user_id : Str)
    (hdbg : st.debugger_active = false)
    (hlen : input_str.length ≤ MAX_INPUT_LENGTH)
    (hcln : prevent_sql_injection input_str = doubleQuotes input_str)
    (hcount : (prunedHistory st now user_id).length < MAX_REQUESTS_PER_WINDOW) :
    check_security st now input_str user_id =
      ((true, .safe),
       { st with request_history := fun k =>
           if k = user_id then prunedHistory st now user_id ++ [now]
           else st.request_history k }) := by
  have hsize : ¬(input_str ≠ [] ∧ input_str.length > MAX_INPUT_LENGTH) :=
    fun h => absurd h.2 (not_lt.mpr hlen)
  have hchar : ¬(prevent_sql_injection input_str ≠ doubleQuotes input_str) :=
    fun h => h hcln
  have hrate : ¬((prunedHistory st now user_id).length ≥ MAX_REQUESTS_PER_WINDOW) :=
    not_le.mpr hcount
  unfold check_security check_debugger_active
  rw [hdbg]
  simp only [Bool.false_eq_true, if_false, if_neg hsize, if_neg hchar, if_neg hrate]

/-- A `check_security` call that passes the input gates but finds the
window full: it is refused and only the pruned history is written back
(no new timestamp). -/
theorem check_security_blocked (st : SecState) (now : ℚ) (input_str user_id : Str)
    (hdbg : st.debugger_active = false)
    (hlen : input_str.length ≤ MAX_INPUT_LENGTH)
    (hcln : prevent_sql_injection input_str = doubleQuotes input_str)
    (hcount : (prunedHistory st now user_id).length ≥ MAX_REQUESTS_PER_WINDOW) :
    check_security st now input_str user_id =
      ((false, .tooManyRequests),
       { st with request_history := fun k =>
           if k = user_id then prunedHistory st now user_id
           else st.request_history k }) := by
  have hsize : ¬(input_str ≠ [] ∧ input_str.length > MAX_INPUT_LENGTH) :=
    fun h => absurd h.2 (not_lt.mpr hlen)
  have hchar : ¬(prevent_sql_injection input_str ≠ doubleQuotes input_str) :=
    fun h => h hcln
  unfold check_security check_debugger_active
  rw [hdbg]
  simp only [Bool.false_eq_true, if_false, if_neg hsize, if_neg hchar, if_pos hcount]

/-- When every recorded timestamp and the current time lie in a window of
width < 60, the pruning step keeps the whole history. -/
theorem prunedHistory_keep_all (st : SecState) (now : ℚ) (id : Str) (lo hi : ℚ)
    (hw : hi - lo < 60) (hnow : now ≤ hi)
    (hbound : ∀ t ∈ st.request_history id, lo ≤ t) :
    prunedHistory st now id = st.request_history id := by
  unfold prunedHistory
  apply List.filter_eq_self.mpr
  intro t ht
  simp only [decide_eq_true_eq]
  show now - t < (60 : ℚ)
  have := hbound t ht
  linarith

/-- Under a shared time window of width < 60, consecutive allowed calls
accumulate their timestamps one per call: every call succeeds while the
total count stays within the limit. -/
theorem iterChecks_window (input_str id : Str) (lo hi : ℚ) (hw : hi - lo < 60)
    (hlen : input_str.length ≤ MAX_INPUT_LENGTH)
    (hcln : prevent_sql_injection input_str = doubleQuotes input_str) :
    ∀ (ts : List ℚ) (st : SecState) (acc : List ℚ),
    st.debugger_active = false →
    st.request_history id = acc →
    (∀ t ∈ acc, lo ≤ t ∧ t ≤ hi) →
    (∀ t ∈ ts, lo ≤ t ∧ t ≤ hi) →
    acc.length + ts.length ≤ MAX_REQUESTS_PER_WINDOW →
    (iterChecks input_str id st ts).1 = List.replicate ts.length true ∧
    (iterChecks input_str id st ts).2.request_history id = acc ++ ts ∧
    (iterChecks input_str id st ts).2.debugger_active = false := by
  intro ts
  induction ts with
  | nil =>
    intro st acc hdbg hacc haccB htsB hcount
    refine ⟨rfl, ?_, hdbg⟩
    rw [List.append_nil]
    exact hacc
  | cons now rest ih =>
    intro st acc hdbg hacc haccB htsB hcount
    have hpruned : prunedHistory st now id = acc := by
      rw [prunedHistory_keep_all st now id lo hi hw (htsB now (by simp)).2
        (fun t ht => (haccB t (hacc ▸ ht)).1)]
      exact hacc
    have hlt : acc.length < MAX_REQUESTS_PER_WINDOW := by
      simp only [List.length_cons] at hcount
      omega
    have hstep := check_security_allowed st now input_str id hdbg hlen hcln
      (by rw [hpruned]; exact hlt)
    rw [hpruned] at hstep
    have hst1hist :
        (check_security st now input_str id).2.request_history id = acc ++ [now] := by
      rw [hstep]
      simp
    have hst1dbg : (check_security st now input_str id).2.debugger_active = false := by
      rw [hstep]
      exact hdbg
    have hrec := ih (check_security st now input_str id).2 (acc ++ [now]) hst1dbg
      hst1hist
      (by intro t ht
          rcases List.mem_append.mp ht with h | h
          · exact haccB t h
          · simp at h
            subst h
            exact htsB t (by simp))
      (fun t ht => htsB t (by simp [ht]))
      (by simp only [List.length_append, List.length_cons, List.length_nil] at hcount ⊢
          omega)
    have hflag : (check_security st now input_str id).1.1 = true := by
      rw [hstep]
    refine ⟨?_, ?_, hrec.2.2⟩
    · simp only [iterChecks, hflag, hrec.1, List.length_cons, List.replicate_succ]
    · simp only [iterChecks, hrec.2.1, List.append_assoc, List.singleton_append]

/-- `iterChecks` over an append runs the two blocks of calls in sequence. -/
theorem iterChecks_append (input_str id : Str) (a b : List ℚ) : ∀ st : SecState,
    iterChecks input_str id st (a ++ b) =
      ((iterChecks input_str id st a).1 ++
         (iterChecks input_str id (iterChecks input_str id st a).2 b).1,
       (iterChecks input_str id (iterChecks input_str id st a).2 b).2) := by
  induction a with
  | nil => intro st; simp [iterChecks]
  | cons now rest ih =>
    intro st
    simp only [List.cons_append, iterChecks, List.append_eq]
    rw [ih]

/-- C4: with an input that passes the size and character gates and no
debugger, (i) six calls at nondecreasing times spanning less than 60
seconds from an empty ledger: the first five are allowed, the sixth is
refused, and the ledger then holds exactly the five allowed timestamps;
(ii) once every recorded timestamp is at least 60 seconds old, a call is
allowed again and the ledger holds just the new timestamp; (iii) the
success flag equals the under-limit test on the pruned window, and a new
timestamp is appended to the ledger exactly when the call is allowed. -/
theorem rate_limit_sliding_window (input_str id : Str) (st st' st'' : SecState)
    (t1 t2 t3 t4 t5 t6 now now' : ℚ)
    (hlen : input_str.length ≤ MAX_INPUT_LENGTH)
    (hcln : prevent_sql_injection input_str = doubleQuotes input_str)
    (hdbg : st.debugger_active = false)
    (hdbg' : st'.debugger_active = false)
    (hdbg'' : st''.debugger_active = false)
    (hempty : st.request_history id = [])
    (h12 : t1 ≤ t2) (h23 : t2 ≤ t3) (h34 : t3 ≤ t4) (h45 : t4 ≤ t5) (h56 : t5 ≤ t6)
    (hwin : t6 - t1 < 60)
    (hstale : ∀ t ∈ st'.request_history id, now - t ≥ 60) :
    (iterChecks input_str id st [t1, t2, t3, t4, t5, t6]).1 =
      [true, true, true, true, true, false] ∧
    (iterChecks input_str id st [t1, t2, t3, t4, t5, t6]).2.request_history id =
      [t1, t2, t3, t4, t5] ∧
    (check_security (iterChecks input_str id st [t1, t2, t3, t4, t5]).2
      t6 input_str id).1 = (false, .tooManyRequests) ∧
    (check_security st' now input_str id).1.1 = true ∧
    (check_security st' now input_str id).2.request_history id = [now] ∧
    (check_security st'' now' input_str id).1.1 =
      decide ((prunedHistory st'' now' id).length < MAX_REQUESTS_PER_WINDOW) ∧
    (check_security st'' now' input_str id).2.request_history id =
      (if (prunedHistory st'' now' id).length ≥ MAX_REQUESTS_PER_WINDOW
       then prunedHistory st'' now' id
       else prunedHistory st'' now' id ++ [now']) := by
  have hbounds : ∀ t ∈ [t1, t2, t3, t4, t5], t1 ≤ t ∧ t ≤ t6 := by
    intro t ht
    simp only [List.mem_cons, List.not_mem_nil, or_false] at ht
    rcases ht with rfl | rfl | rfl | rfl | rfl <;> constructor <;> linarith
  have h5 := iterChecks_window input_str id t1 t6 hwin hlen hcln
    [t1, t2, t3, t4, t5] st [] hdbg hempty (by simp) hbounds Nat.le.refl
  obtain ⟨hflags5, hhist5, hdbg5⟩ := h5
  have hpruned6 :
      prunedHistory (iterChecks input_str id st [t1, t2, t3, t4, t5]).2 t6 id =
      [t1, t2, t3, t4, t5] := by
    rw [prunedHistory_keep_all _ t6 id t1 t6 hwin le_rfl
      (fun t ht => (hbounds t (by rw [hhist5] at ht; exact ht)).1)]
    exact hhist5
  have hblock := check_security_blocked
    (iterChecks input_str id st [t1, t2, t3, t4, t5]).2 t6 input_str id
    hdbg5 hlen hcln (by rw [hpruned6]; exact Nat.le.refl)
  have hsplit := iterChecks_append input_str id [t1, t2, t3, t4, t5] [t6] st
  have hstalepruned : prunedHistory st' now id = [] := by
    unfold prunedHistory
    apply List.filter_eq_nil_iff.mpr
    intro t ht
    simp only [decide_eq_true_eq]
    have := hstale t ht
    show ¬(now - t < (60 : ℚ))
    linarith
  have hallow' := check_security_allowed st' now input_str id hdbg' hlen hcln
    (by rw [hstalepruned]; simp [MAX_REQUESTS_PER_WINDOW])
  have iterChecks_one : ∀ (stx : SecState) (t : ℚ),
      iterChecks input_str id stx [t] =
        ([(check_security stx t input_str id).1.1],
         (check_security stx t input_str id).2) := fun _ _ => rfl
  refine ⟨?_, ?_, ?_, ?_, ?_, ?_, ?_⟩
  · show (iterChecks input_str id st ([t1, t2, t3, t4, t5] ++ [t6])).1 = _
    rw [hsplit, hflags5, iterChecks_one, hblock]
    rfl
  · show (iterChecks input_str id st ([t1, t2, t3, t4, t5] ++ [t6])).2.request_history id = _
    rw [hsplit]
    show (iterChecks input_str id
      (iterChecks input_str id st [t1, t2, t3, t4, t5]).2 [t6]).2.request_history id = _
    rw [iterChecks_one, hblock]
    simp [hpruned6]
  · rw [hblock]
  · rw [hallow']
  · rw [hallow', hstalepruned]
    simp
  · by_cases hc : (prunedHistory st'' now' id).length ≥ MAX_REQUESTS_PER_WINDOW
    · rw [check_security_blocked st'' now' input_str id hdbg'' hlen hcln hc]
      have : ¬((prunedHistory st'' now' id).length < MAX_REQUESTS_PER_WINDOW) :=
        not_lt.mpr hc
      simp [this]
    · rw [check_security_allowed st'' now' input_str id hdbg'' hlen hcln
        (by omega)]
      have : (prunedHistory st'' now' id).length < MAX_REQUESTS_PER_WINDOW := by
        omega
      simp [this]
  · by_cases hc : (prunedHistory st'' now' id).length ≥ MAX_REQUESTS_PER_WINDOW
    · rw [check_security_blocked st'' now' input_str id hdbg'' hlen hcln hc,
        if_pos hc]
      simp
    · rw [check_security_allowed st'' now' input_str id hdbg'' hlen hcln
        (by omega), if_neg hc]
      simp

/-- C4 witness: identity "x" sending "hello" at times 0,10,20,30,40,50
(five allowed, the sixth refused), a stale state allowing again, and the
record-iff-allowed equations at time 7 on the empty state. -/
theorem rate_limit_sliding_window_witness :
    (iterChecks (("hello").toList) (("x").toList) secState0
      [0, 10, 20, 30, 40, 50]).1 = [true, true, true, true, true, false] ∧
    (iterChecks (("hello").toList) (("x").toList) secState0
      [0, 10, 20, 30, 40, 50]).2.request_history (("x").toList) = [0, 10, 20, 30, 40] ∧
    (check_security (iterChecks (("hello").toList) (("x").toList) secState0
      [0, 10, 20, 30, 40]).2 50 (("hello").toList) (("x").toList)).1 =
      (false, .tooManyRequests) ∧
    (check_security secStateStale 0 (("hello").toList) (("x").toList)).1.1 = true ∧
    (check_security secStateStale 0 (("hello").toList) (("x").toList)).2.request_history
      (("x").toList) = [0] ∧
    (check_security secState0 7 (("hello").toList) (("x").toList)).1.1 =
      decide ((prunedHistory secState0 7 (("x").toList)).length < MAX_REQUESTS_PER_WINDOW) ∧
    (check_security secState0 7 (("hello").toList) (("x").toList)).2.request_history
      (("x").toList) =
      (if (prunedHistory secState0 7 (("x").toList)).length ≥ MAX_REQUESTS_PER_WINDOW
       then prunedHistory secState0 7 (("x").toList)
       else prunedHistory secState0 7 (("x").toList) ++ [7]) :=
  rate_limit_sliding_window (("hello").toList) (("x").toList)
    secState0 secStateStale secState0 0 10 20 30 40 50 0 7
    (by decide) (by decide) rfl rfl rfl rfl
    (by norm_num) (by norm_num) (by norm_num) (by norm_num) (by norm_num)
    (by norm_num)
    (by intro t ht
        simp only [secStateStale, List.mem_singleton] at ht
        subst ht
        norm_num)

/-- Word truncation lands below 2^32. -/
theorem w32_lt (n : Nat) : w32 n < 4294967296 := Nat.mod_lt _ (by norm_num)

/-- Chunk processing keeps the working variables below 2^32. -/
theorem shaChunks_bounded : ∀ (fuel : Nat) (ws : List Nat) (s : Sha8),
    sha8Bounded s → sha8Bounded (shaChunks fuel ws s) := by
  intro fuel
  induction fuel with
  | zero => intro ws s hs; exact hs
  | succ fuel ih =>
    intro ws s hs
    cases ws with
    | nil => exact hs
    | cons b rest =>
      exact ih _ _ ⟨w32_lt _, w32_lt _, w32_lt _, w32_lt _,
                    w32_lt _, w32_lt _, w32_lt _, w32_lt _⟩

/-- The combined digest of a bounded state is below 2^256. -/
theorem shaOut_lt (s : Sha8) (hs : sha8Bounded s) : shaOut s < 2 ^ 256 := by
  obtain ⟨ha, hb, hc, hd, he, hf, hg, hh⟩ := hs
  unfold shaOut
  have h1 : s.a * 4294967296 + s.b < 18446744073709551616 := by omega
  have h2 : (s.a * 4294967296 + s.b) * 4294967296 + s.c <
      79228162514264337593543950336 := by omega
  have h3 : ((s.a * 4294967296 + s.b) * 4294967296 + s.c) * 4294967296 + s.d <
      340282366920938463463374607431768211456 := by omega
  have h4 : (((s.a * 4294967296 + s.b) * 4294967296 + s.c) * 4294967296 + s.d) *
      4294967296 + s.e < 1461501637330902918203684832716283019655932542976 := by
    omega
  have h5 : ((((s.a * 4294967296 + s.b) * 4294967296 + s.c) * 4294967296 + s.d) *
      4294967296 + s.e) * 4294967296 + s.f <
      6277101735386680763835789423207666416102355444464034512896 := by omega
  have h6 : (((((s.a * 4294967296 + s.b) * 4294967296 + s.c) * 4294967296 + s.d) *
      4294967296 + s.e) * 4294967296 + s.f) * 4294967296 + s.g <
      26959946667150639794667015087019630673637144422540572481103610249216 := by
    omega
  have hpow : (2 : Nat) ^ 256 =
      115792089237316195423570985008687907853269984665640564039457584007913129639936 := by
    norm_num
  rw [hpow]
  omega

/-- `sha256Nat` always lands below 2^256. -/
theorem sha256Nat_lt (msg : List Nat) : sha256Nat msg < 2 ^ 256 :=
  shaOut_lt _ (shaChunks_bounded _ _ shaH0 (by unfold sha8Bounded; decide))

/-- Splitting a colon-free string on `:` yields the string itself. -/
theorem splitOnColon_nocolon (b : Str) (hb : ':' ∉ b) : splitOnColon b = [b] := by
  induction b with
  | nil => rfl
  | cons c rest ih =>
    have hc : ¬(c = ':') := fun h => hb (h ▸ List.mem_cons_self c rest)
    have hrest : ':' ∉ rest := fun h => hb (List.mem_cons_of_mem c h)
    simp only [splitOnColon, if_neg hc, ih hrest]

/-- Splitting at the first colon after a colon-free prefix. -/
theorem splitOnColon_append (a b : Str) (ha : ':' ∉ a) :
    splitOnColon (a ++ ':' :: b) = a :: splitOnColon b := by
  induction a with
  | nil => simp [splitOnColon]
  | cons c rest ih =>
    have hc : ¬(c = ':') := fun h => ha (h ▸ List.mem_cons_self c rest)
    have hrest : ':' ∉ rest := fun h => ha (List.mem_cons_of_mem c h)
    simp only [List.cons_append, splitOnColon, List.append_eq, if_neg hc, ih hrest]

/-- Hex digests never contain a colon. -/
theorem hexDigest_noColon (n : Nat) : ':' ∉ hexDigest n := by
  have hnib : ∀ k : Fin 16, nibbleChar k.val ≠ ':' := by decide
  intro hmem
  simp only [hexDigest, List.mem_map, List.mem_range] at hmem
  obtain ⟨i, _, heq⟩ := hmem
  exact hnib ⟨(n >>> (4 * (63 - i))) % 16, Nat.mod_lt _ (by norm_num)⟩ heq

/-- Splitting a freshly hashed password on `:` recovers the salt and the
hex digest. -/
theorem splitOnColon_hash (q salt : Str) (hsalt : ':' ∉ salt) :
    splitOnColon (SecurityManager.hash_password q salt) =
      [salt, hexDigest (sha256Nat (utf8Encode (salt ++ q)))] := by
  unfold SecurityManager.hash_password
  rw [splitOnColon_append _ _ hsalt,
    splitOnColon_nocolon _ (hexDigest_noColon _)]

/-- `verify_password` against a freshly hashed password compares exactly
the two hex digests. -/
theorem verify_password_hash (q q' salt : Str) (hsalt : ':' ∉ salt) :
    SecurityManager.verify_password (SecurityManager.hash_password q salt) q' =
      (hexDigest (sha256Nat (utf8Encode (salt ++ q'))) ==
       hexDigest (sha256Nat (utf8Encode (salt ++ q)))) := by
  unfold SecurityManager.verify_password
  simp only [splitOnColon_hash q salt hsalt]
  simp only [splitOnColon_hash q' salt hsalt]

/-- C5 (amended): `verify_password (hash_password p salt) p` is true for
every password p and colon-free salt; and `verify_password
(hash_password p salt) p'` is false exactly as long as the recomputed
digest of p' differs from the stored digest of p (by pigeonhole over the
256-bit digest space, distinct passwords with equal digests — hence
verify true — exist, so the unconditional claim cannot hold). -/
theorem password_roundtrip (p p' salt : Str) (hsalt : ':' ∉ salt)
    (hne : hexDigest (sha256Nat (utf8Encode (salt ++ p'))) ≠
           hexDigest (sha256Nat (utf8Encode (salt ++ p)))) :
    SecurityManager.verify_password (SecurityManager.hash_password p salt) p = true ∧
    SecurityManager.verify_password (SecurityManager.hash_password p salt) p' = false := by
  constructor
  · rw [verify_password_hash p p salt hsalt]
    simp
  · rw [verify_password_hash p p' salt hsalt]
    simp [hne]

/-- C5 witness: password "pw", imposter password "qw", salt "ab". -/
theorem password_roundtrip_witness :
    SecurityManager.verify_password
      (SecurityManager.hash_password (("pw").toList) (("ab").toList))
      (("pw").toList) = true ∧
    SecurityManager.verify_password
      (SecurityManager.hash_password (("pw").toList) (("ab").toList))
      (("qw").toList) = false :=
  password_roundtrip (("pw").toList) (("qw").toList) (("ab").toList)
    (by decide) (by decide)

/-- C5 counterexample: the claim "verify is false for every p' ≠ p" fails
in principle: infinitely many passwords map into the finite 256-bit digest
space, so two distinct passwords share a digest and verify as each other. -/
theorem password_collision_exists :
    ¬ (∀ p p' : Str, p' ≠ p →
        SecurityManager.verify_password
          (SecurityManager.hash_password p (List.replicate 32 '0')) p' = false) := by
  intro hclaim
  have hsalt : ':' ∉ List.replicate 32 '0' := by decide
  obtain ⟨m, n, hmn, heq⟩ := Finite.exists_ne_map_eq_of_infinite
    (fun k : ℕ =>
      (⟨sha256Nat (utf8Encode (List.replicate 32 '0' ++ List.replicate k 'a')),
        sha256Nat_lt _⟩ : Fin (2 ^ 256)))
  have hpne : List.replicate n 'a' ≠ List.replicate m 'a' := by
    intro h
    apply hmn
    have hl := congrArg List.length h
    rw [List.length_replicate, List.length_replicate] at hl
    omega
  have hval : sha256Nat (utf8Encode (List.replicate 32 '0' ++ List.replicate n 'a')) =
      sha256Nat (utf8Encode (List.replicate 32 '0' ++ List.replicate m 'a')) := by
    have := congrArg Fin.val heq
    simpa using this.symm
  have htrue : SecurityManager.verify_password
      (SecurityManager.hash_password (List.replicate m 'a') (List.replicate 32 '0'))
      (List.replicate n 'a') = true := by
    rw [verify_password_hash _ _ _ hsalt, hval]
    simp
  have hfalse := hclaim (List.replicate m 'a') (List.replicate n 'a') hpne
  rw [hfalse] at htrue
  exact Bool.noConfusion htrue

/-- `check_security` never changes the debugger flag. -/
theorem check_security_debugger (st : SecState) (now : ℚ) (input_str user_id : Str) :
    (check_security st now input_str user_id).2.debugger_active =
      st.debugger_active := by
  simp only [check_security]
  split_ifs <;> rfl

/-- C10 counterexample: with national id ";" — which the character gate
rejects — and an empty directory, `register` returns `False` even though
no record carries that id, so rejection is not only for duplicate
national ids. -/
theorem register_rejects_fresh_tc :
    (Login.register regLs0 0 (("ab").toList) ((";").toList) (("Ada").toList)
        (("L").toList) (("a@b.c").toList) (("X").toList) (("5550002").toList)
        (("pw").toList)).toOption.map Prod.fst = some false ∧
    tcExists regLs0.authorized_users ((";").toList) = false := by
  constructor
  · decide
  · decide

/-- C10 (amended): when both security-gate calls pass (no debugger active,
the national id within size bounds and sanitize-clean, neither the
"guest" identity nor the phone identity rate-limited) and the sanitized
name and surname are within bounds, `register` returns `False` exactly
when the supplied national id already occurs in some record; a phone
number that is already a key is not rejected — its record is silently
replaced by the fresh registration (balance 0, empty history). -/
theorem register_tc_duplicate_only (ls : LoginState) (now : ℚ) (salt : Str)
    (tc_no name surname email address phone password : Str)
    (hdbg : ls.sec.debugger_active = false)
    (hlen_tc : tc_no.length ≤ MAX_INPUT_LENGTH)
    (hcln_tc : prevent_sql_injection tc_no = doubleQuotes tc_no)
    (hrate_tc : (prunedHistory ls.sec now (("guest").toList)).length <
      MAX_REQUESTS_PER_WINDOW)
    (hrate_ph : (prunedHistory (check_security ls.sec now tc_no
      (("guest").toList)).2 now phone).length < MAX_REQUESTS_PER_WINDOW)
    (hname : (prevent_sql_injection (prevent_sql_injection name)).length ≤
      MAX_INPUT_LENGTH)
    (hsurname : (prevent_sql_injection (prevent_sql_injection surname)).length ≤
      MAX_INPUT_LENGTH) :
    (Login.register ls now salt tc_no name surname email address phone
        password).toOption.map Prod.fst =
      some (!(tcExists ls.authorized_users tc_no)) ∧
    (Login.register ls now salt tc_no name surname email address phone
        password).toOption.map (fun r => dictGet r.2.authorized_users phone) =
      some (if tcExists ls.authorized_users tc_no
            then dictGet ls.authorized_users phone
            else some { tc_no := tc_no,
                        password := SecurityManager.hash_password password salt,
                        resident :=
                          { name := prevent_sql_injection (prevent_sql_injection name),
                            surname := prevent_sql_injection (prevent_sql_injection surname),
                            email := email, address := address, phone := phone } }) := by
  have hr1 := check_security_allowed ls.sec now tc_no (("guest").toList)
    hdbg hlen_tc hcln_tc hrate_tc
  have hdbg1 : (check_security ls.sec now tc_no (("guest").toList)).2.debugger_active
      = false := by
    rw [check_security_debugger]
    exact hdbg
  have hr2 := check_security_allowed
    (check_security ls.sec now tc_no (("guest").toList)).2
    now (("register").toList) phone hdbg1 (by decide) (by decide) hrate_ph
  have hres : mkResident (prevent_sql_injection name) (prevent_sql_injection surname)
      email address phone =
      .ok { name := prevent_sql_injection (prevent_sql_injection name),
            surname := prevent_sql_injection (prevent_sql_injection surname),
            email := email, address := address, phone := phone } := by
    unfold mkResident
    rw [if_neg (not_or.mpr ⟨not_lt.mpr hname, not_lt.mpr hsurname⟩)]
  have hgate1 : (check_security ls.sec now tc_no (("guest").toList)).1.1 = true := by
    rw [hr1]
  have hgate2 : (check_security (check_security ls.sec now tc_no
      (("guest").toList)).2 now (("register").toList) phone).1.1 = true := by
    rw [hr2]
  constructor
  · unfold Login.register
    dsimp only
    rw [hgate1, hgate2]
    by_cases htc : tcExists ls.authorized_users tc_no
    · simp [htc]
      exact ⟨_, rfl⟩
    · simp [htc, hres]
      exact ⟨_, rfl⟩
  · unfold Login.register
    dsimp only
    rw [hgate1, hgate2]
    by_cases htc : tcExists ls.authorized_users tc_no
    · simp [htc]
      exact .inl ⟨_, rfl, rfl⟩
    · simp [htc, hres]
      exact .inr ⟨_, rfl, dictGet_dictSet _ _ _⟩

/-- C10 witness: registering a fresh national id under the already-taken
phone key `5550001` succeeds and silently replaces `sampleRecord`. -/
theorem register_tc_duplicate_only_witness :
    (Login.register regLs1 0 (("ab").toList) (("22222222222").toList)
        (("Ada").toList) (("L").toList) (("a@b.c").toList) (("X").toList)
        (("5550001").toList) (("pw").toList)).toOption.map Prod.fst =
      some (!(tcExists regLs1.authorized_users (("22222222222").toList))) ∧
    (Login.register regLs1 0 (("ab").toList) (("22222222222").toList)
        (("Ada").toList) (("L").toList) (("a@b.c").toList) (("X").toList)
        (("5550001").toList) (("pw").toList)).toOption.map
        (fun r => dictGet r.2.authorized_users (("5550001").toList)) =
      some (if tcExists regLs1.authorized_users (("22222222222").toList)
            then dictGet regLs1.authorized_users (("5550001").toList)
            else some { tc_no := ("22222222222").toList,
                        password := SecurityManager.hash_password (("pw").toList)
                          (("ab").toList),
                        resident :=
                          { name := prevent_sql_injection (prevent_sql_injection
                              (("Ada").toList)),
                            surname := prevent_sql_injection (prevent_sql_injection
                              (("L").toList)),
                            email := ("a@b.c").toList, address := ("X").toList,
                            phone := ("5550001").toList } }) :=
  register_tc_duplicate_only regLs1 0 (("ab").toList) (("22222222222").toList)
    (("Ada").toList) (("L").toList) (("a@b.c").toList) (("X").toList)
    (("5550001").toList) (("pw").toList)
    rfl (by decide) (by decide) (by decide) (by decide) (by decide) (by decide)

end SmartCity
